import Mathlib

/-!
Shallow embedding of the squat repetition detector from `Project/analysis.py`.

The detector (`SquatAnalyzer`) is a debounced hysteresis state machine that
consumes one optional scalar measurement per cycle (the y coordinate of a
tracked hip marker) and maintains a phase string (`"above"` / `"below"`), a
repetition counter and a debounce counter.  Python instance mutation is
modelled by explicit state passing: `update` returns the new analyzer state
together with the emitted `SquatResult` record.  Pixel coordinates (Python
floats) are modelled as rationals; the code only compares them, never rounds.
-/

namespace Squat

/-- Record returned by `SquatAnalyzer.update()` each frame (class `SquatResult`
in `analysis.py`). -/
structure SquatResult where
  rep_count : Nat
  new_rep : Bool
  depth : Option ℚ
  state : String
  status_text : String
deriving DecidableEq

/-- The analyzer's fields: configuration (`hip_id`, thresholds, debounce
length, `require_marker`) plus the mutable state machine variables
(`state`, `rep_count`, `_below_frame_counter`).  The phase is kept as a
string, exactly as in the source. -/
structure SquatAnalyzer where
  hip_id : Nat
  top_threshold : ℚ
  bottom_threshold : ℚ
  min_frames_below : Nat
  require_marker : Bool
  state : String
  rep_count : Nat
  below_frame_counter : Nat
deriving DecidableEq

/-- Constructor `SquatAnalyzer.__init__`: stores the configuration, clamping
the debounce length to `max(1, int(min_frames_below))`, and initializes the
state machine to `"above"` with both counters at zero.  The Python argument
is an integer, so `int(...)` is the identity and the argument is an `Int`
here; the stored (necessarily positive) value lives in `Nat`. -/
def SquatAnalyzer.init (hip_id : Nat) (top_threshold bottom_threshold : ℚ)
    (min_frames_below : Int) (require_marker : Bool) : SquatAnalyzer where
  hip_id := hip_id
  top_threshold := top_threshold
  bottom_threshold := bottom_threshold
  min_frames_below := (max 1 min_frames_below).toNat
  require_marker := require_marker
  state := "above"
  rep_count := 0
  below_frame_counter := 0

/-- One frame's marker detections, as far as the analyzer reads them: a map
from marker id to the marker's center `(cx, cy)`.  (The source dict also
carries the corner array, which `update` never touches.) -/
def Markers : Type := Nat → Option (ℚ × ℚ)

/-- Method `SquatAnalyzer.update`: one cycle of the state machine.  Returns
the post-update analyzer together with the emitted `SquatResult`. -/
def SquatAnalyzer.update (a : SquatAnalyzer) (markers : Markers) :
    SquatAnalyzer × SquatResult :=
  match markers a.hip_id with
  | none =>
      if a.require_marker then
        (a, { rep_count := a.rep_count, new_rep := false, depth := none,
              state := a.state, status_text := "Hip marker not detected" })
      else
        (a, { rep_count := a.rep_count, new_rep := false, depth := none,
              state := a.state, status_text := "No marker (ignored)" })
  | some center =>
      let hip_y := center.2
      let depth := hip_y
      if a.state = "above" then
        let c := if hip_y ≥ a.bottom_threshold then a.below_frame_counter + 1 else 0
        if c ≥ a.min_frames_below then
          let a1 : SquatAnalyzer := { a with state := "below", below_frame_counter := 0 }
          (a1, { rep_count := a1.rep_count, new_rep := false, depth := some depth,
                 state := a1.state, status_text := "Reached depth (below)" })
        else
          let a1 : SquatAnalyzer := { a with below_frame_counter := c }
          (a1, { rep_count := a1.rep_count, new_rep := false, depth := some depth,
                 state := a1.state, status_text := "Above / going down" })
      else if a.state = "below" then
        if hip_y ≤ a.top_threshold then
          let a1 : SquatAnalyzer := { a with state := "above", rep_count := a.rep_count + 1 }
          (a1, { rep_count := a1.rep_count, new_rep := true, depth := some depth,
                 state := a1.state, status_text := "Rep completed!" })
        else
          (a, { rep_count := a.rep_count, new_rep := false, depth := some depth,
                state := a.state, status_text := "Below / coming up" })
      else
        let a1 : SquatAnalyzer := { a with state := "above" }
        (a1, { rep_count := a1.rep_count, new_rep := false, depth := some depth,
               state := a1.state, status_text := "State reset" })

/-- Method `SquatAnalyzer.reset`: phase back to `"above"`, both counters to
zero; configuration untouched. -/
def SquatAnalyzer.reset (a : SquatAnalyzer) : SquatAnalyzer :=
  { a with state := "above", rep_count := 0, below_frame_counter := 0 }

/-- A marker dictionary that does not contain any marker (no detections this
frame). -/
def absentMarkers : Markers := fun _ => none

/-- A marker dictionary holding exactly one marker `i` with center `(0, v)`:
the tracked marker is present with vertical coordinate `v`. -/
def presentMarkers (i : Nat) (v : ℚ) : Markers :=
  fun j => if j = i then some (0, v) else none

/-- Feed one optional scalar to the analyzer and keep the resulting state:
`none` is an absent-signal cycle, `some v` a cycle whose hip marker has
vertical coordinate `v`. -/
def SquatAnalyzer.step (a : SquatAnalyzer) (v : Option ℚ) : SquatAnalyzer :=
  (a.update (match v with
             | none => absentMarkers
             | some x => presentMarkers a.hip_id x)).1

/-- Run the analyzer over a sequence of optional scalar readings, keeping the
final state. -/
def SquatAnalyzer.runValues (a : SquatAnalyzer) (vs : List (Option ℚ)) : SquatAnalyzer :=
  vs.foldl SquatAnalyzer.step a

/-- Run the analyzer over a sequence of marker dictionaries, keeping the final
state. -/
def SquatAnalyzer.runM (a : SquatAnalyzer) (ms : List Markers) : SquatAnalyzer :=
  ms.foldl (fun s m => (s.update m).1) a

/-- Run the analyzer over a sequence of marker dictionaries, returning the
final state together with the per-cycle results, in order. -/
def SquatAnalyzer.runTrace (a : SquatAnalyzer) : List Markers → SquatAnalyzer × List SquatResult
  | [] => (a, [])
  | m :: ms =>
      let p := a.update m
      let q := p.1.runTrace ms
      (q.1, p.2 :: q.2)

/-- Observable agreement of two result records in every field except the
status string. -/
def obsEq (r s : SquatResult) : Prop :=
  r.rep_count = s.rep_count ∧ r.new_rep = s.new_rep ∧ r.depth = s.depth ∧ r.state = s.state

instance (r s : SquatResult) : Decidable (obsEq r s) := by
  unfold obsEq; infer_instance

/-- Analyzer states reachable from some freshly constructed analyzer by any
sequence of `update` and `reset` calls. -/
inductive Reachable : SquatAnalyzer → Prop where
  | init : ∀ (h : Nat) (t b : ℚ) (n : Int) (r : Bool),
      Reachable (SquatAnalyzer.init h t b n r)
  | update : ∀ (a : SquatAnalyzer) (m : Markers),
      Reachable a → Reachable (a.update m).1
  | reset : ∀ (a : SquatAnalyzer), Reachable a → Reachable a.reset

/-! ### Branch characterizations of `update` -/

theorem below_ne_above : ("below" : String) ≠ "above" := by decide

theorem above_ne_below : ("above" : String) ≠ "below" := by decide

/-- Absent-signal cycle: the state is returned unchanged; only the status
string depends on `require_marker`. -/
theorem update_absent (a : SquatAnalyzer) (m : Markers) (hm : m a.hip_id = none) :
    a.update m = (a, { rep_count := a.rep_count, new_rep := false, depth := none,
                       state := a.state,
                       status_text := (if a.require_marker then "Hip marker not detected"
                                       else "No marker (ignored)") }) := by
  unfold SquatAnalyzer.update
  rw [hm]
  by_cases h : a.require_marker <;> simp [h]

/-- Phase `"above"`, qualifying value, debounce not yet satisfied: the counter
is incremented and the phase kept. -/
theorem update_above_q_lt (a : SquatAnalyzer) (m : Markers) (c v : ℚ)
    (hm : m a.hip_id = some (c, v)) (ha : a.state = "above")
    (hv : a.bottom_threshold ≤ v)
    (hlt : a.below_frame_counter + 1 < a.min_frames_below) :
    a.update m = ({ a with below_frame_counter := a.below_frame_counter + 1 },
      { rep_count := a.rep_count, new_rep := false, depth := some v,
        state := a.state, status_text := "Above / going down" }) := by
  unfold SquatAnalyzer.update
  rw [hm]
  simp [ha, hv, Nat.not_le.mpr hlt]

/-- Phase `"above"`, qualifying value, debounce satisfied: transition to
`"below"`, counter reset, no repetition increment. -/
theorem update_above_q_ge (a : SquatAnalyzer) (m : Markers) (c v : ℚ)
    (hm : m a.hip_id = some (c, v)) (ha : a.state = "above")
    (hv : a.bottom_threshold ≤ v)
    (hge : a.min_frames_below ≤ a.below_frame_counter + 1) :
    a.update m = ({ a with state := "below", below_frame_counter := 0 },
      { rep_count := a.rep_count, new_rep := false, depth := some v,
        state := "below", status_text := "Reached depth (below)" }) := by
  unfold SquatAnalyzer.update
  rw [hm]
  simp [ha, hv, hge]

/-- Phase `"above"`, non-qualifying value: the counter is reset to zero and
the phase kept (the debounce length is at least 1 for any constructed
analyzer). -/
theorem update_above_nq (a : SquatAnalyzer) (m : Markers) (c v : ℚ)
    (hm : m a.hip_id = some (c, v)) (ha : a.state = "above")
    (hv : v < a.bottom_threshold) (hpos : 1 ≤ a.min_frames_below) :
    a.update m = ({ a with below_frame_counter := 0 },
      { rep_count := a.rep_count, new_rep := false, depth := some v,
        state := a.state, status_text := "Above / going down" }) := by
  unfold SquatAnalyzer.update
  rw [hm]
  simp [ha, not_le.mpr hv, Nat.not_le.mpr (by omega : 0 < a.min_frames_below)]

/-- Phase `"below"`, value back at or above the top zone boundary: transition
to `"above"`, repetition counted, event fired. -/
theorem update_below_up (a : SquatAnalyzer) (m : Markers) (c v : ℚ)
    (hm : m a.hip_id = some (c, v)) (hb : a.state = "below")
    (hv : v ≤ a.top_threshold) :
    a.update m = ({ a with state := "above", rep_count := a.rep_count + 1 },
      { rep_count := a.rep_count + 1, new_rep := true, depth := some v,
        state := "above", status_text := "Rep completed!" }) := by
  unfold SquatAnalyzer.update
  rw [hm]
  simp [hb, below_ne_above, hv]

/-- Phase `"below"`, value still above the top zone boundary: nothing
changes. -/
theorem update_below_stay (a : SquatAnalyzer) (m : Markers) (c v : ℚ)
    (hm : m a.hip_id = some (c, v)) (hb : a.state = "below")
    (hv : a.top_threshold < v) :
    a.update m = (a, { rep_count := a.rep_count, new_rep := false, depth := some v,
                       state := a.state, status_text := "Below / coming up" }) := by
  unfold SquatAnalyzer.update
  rw [hm]
  simp [hb, below_ne_above, not_le.mpr hv]

/-- An update never changes any configuration field. -/
theorem update_config (a : SquatAnalyzer) (m : Markers) :
    (a.update m).1.hip_id = a.hip_id ∧ (a.update m).1.top_threshold = a.top_threshold ∧
    (a.update m).1.bottom_threshold = a.bottom_threshold ∧
    (a.update m).1.min_frames_below = a.min_frames_below ∧
    (a.update m).1.require_marker = a.require_marker := by
  rcases a with ⟨hid, tt, bt, mfb, rq, st, rc, bc⟩
  rcases hm : m hid with _ | ⟨c, v⟩ <;>
    simp only [SquatAnalyzer.update, hm] <;> split_ifs <;> simp

/-! ### The reachable-state invariant -/

/-- State invariant: the phase string is one of the two legal values, the
debounce counter is strictly below the debounce length, and the counter is
zero while in phase `"below"`. -/
def GoodState (a : SquatAnalyzer) : Prop :=
  (a.state = "above" ∨ a.state = "below") ∧
  a.below_frame_counter < a.min_frames_below ∧
  (a.state = "below" → a.below_frame_counter = 0)

theorem goodState_init (h : Nat) (t b : ℚ) (n : Int) (r : Bool) :
    GoodState (SquatAnalyzer.init h t b n r) := by
  refine ⟨Or.inl rfl, ?_, fun _ => rfl⟩
  show 0 < (max 1 n).toNat
  have := le_max_left (1 : Int) n
  omega

theorem goodState_update (a : SquatAnalyzer) (m : Markers) (h : GoodState a) :
    GoodState (a.update m).1 := by
  obtain ⟨hst, hlt, hbe⟩ := h
  rcases hm : m a.hip_id with _ | ⟨c, v⟩
  · rw [update_absent a m hm]
    exact ⟨hst, hlt, hbe⟩
  · rcases hst with ha | hb
    · by_cases hv : a.bottom_threshold ≤ v
      · by_cases hge : a.min_frames_below ≤ a.below_frame_counter + 1
        · rw [update_above_q_ge a m c v hm ha hv hge]
          exact ⟨Or.inr rfl, by show 0 < a.min_frames_below; omega, fun _ => rfl⟩
        · rw [update_above_q_lt a m c v hm ha hv (by omega)]
          refine ⟨Or.inl ha, by show a.below_frame_counter + 1 < a.min_frames_below; omega, ?_⟩
          intro h2
          rw [show ({ a with below_frame_counter := a.below_frame_counter + 1 } :
                SquatAnalyzer).state = a.state from rfl, ha] at h2
          exact absurd h2 above_ne_below
      · rw [update_above_nq a m c v hm ha (not_le.mp hv) (by omega)]
        exact ⟨Or.inl ha, by show 0 < a.min_frames_below; omega, fun _ => rfl⟩
    · by_cases hv : v ≤ a.top_threshold
      · rw [update_below_up a m c v hm hb hv]
        exact ⟨Or.inl rfl, hlt, fun h2 => absurd h2 above_ne_below⟩
      · rw [update_below_stay a m c v hm hb (not_le.mp hv)]
        exact ⟨Or.inr hb, hlt, hbe⟩

theorem goodState_reset (a : SquatAnalyzer) (h : GoodState a) : GoodState a.reset := by
  obtain ⟨_, hlt, _⟩ := h
  exact ⟨Or.inl rfl, by show 0 < a.min_frames_below; omega, fun _ => rfl⟩

theorem reachable_goodState {a : SquatAnalyzer} (h : Reachable a) : GoodState a := by
  induction h with
  | init h t b n r => exact goodState_init h t b n r
  | update a m _ ih => exact goodState_update a m ih
  | reset a _ ih => exact goodState_reset a ih

/-- Single-update bounds on the repetition counter. -/
theorem update_rep_bounds (a : SquatAnalyzer) (m : Markers) :
    a.rep_count ≤ (a.update m).1.rep_count ∧
    (a.update m).1.rep_count ≤ a.rep_count + 1 := by
  rcases a with ⟨hid, tt, bt, mfb, rq, st, rc, bc⟩
  rcases hm : m hid with _ | ⟨c, v⟩ <;>
    simp only [SquatAnalyzer.update, hm] <;> split_ifs <;> simp

/-- The repetition counter never decreases along a run. -/
theorem runM_rep_le (a : SquatAnalyzer) (ms : List Markers) :
    a.rep_count ≤ (a.runM ms).rep_count := by
  induction ms generalizing a with
  | nil => exact le_refl _
  | cons m ms ih => exact le_trans (update_rep_bounds a m).1 (ih (a.update m).1)

/-! ### Claim theorems -/

/-- C1: for every reachable analyzer state and every cycle, the emitted
`new_rep` flag is true if and only if that cycle moves the phase from
`"below"` to `"above"`. -/
theorem event_iff_low_to_high (a : SquatAnalyzer) (m : Markers) (hr : Reachable a) :
    (a.update m).2.new_rep = true ↔
      (a.state = "below" ∧ (a.update m).1.state = "above") := by
  obtain ⟨hst, hlt, -⟩ := reachable_goodState hr
  rcases hm : m a.hip_id with _ | ⟨c, v⟩
  · rw [update_absent a m hm]
    rcases hst with ha | hb
    · simp [ha, above_ne_below]
    · simp [hb, below_ne_above]
  · rcases hst with ha | hb
    · by_cases hv : a.bottom_threshold ≤ v
      · by_cases hge : a.min_frames_below ≤ a.below_frame_counter + 1
        · rw [update_above_q_ge a m c v hm ha hv hge]
          simp [below_ne_above]
        · rw [update_above_q_lt a m c v hm ha hv (by omega)]
          simp [ha, above_ne_below]
      · rw [update_above_nq a m c v hm ha (not_le.mp hv) (by omega)]
        simp [ha, above_ne_below]
    · by_cases hv : v ≤ a.top_threshold
      · rw [update_below_up a m c v hm hb hv]
        simp [hb]
      · rw [update_below_stay a m c v hm hb (not_le.mp hv)]
        simp [hb, below_ne_above]

/-- C1 witness: a fresh analyzer driven to `"below"` by one deep frame fires
on the next shallow frame. -/
theorem event_iff_low_to_high_witness :
    ((((SquatAnalyzer.init 0 200 350 1 true).update (presentMarkers 0 400)).1.update
        (presentMarkers 0 100)).2.new_rep = true ↔
      (((SquatAnalyzer.init 0 200 350 1 true).update (presentMarkers 0 400)).1.state = "below" ∧
       (((SquatAnalyzer.init 0 200 350 1 true).update (presentMarkers 0 400)).1.update
          (presentMarkers 0 100)).1.state = "above")) :=
  event_iff_low_to_high _ _ (Reachable.update _ _ (Reachable.init 0 200 350 1 true))

/-- C3: while in phase `"below"`, a single present value at or below
`top_threshold` transitions to `"above"`, counts one repetition and fires,
with no debounce. -/
theorem ascent_immediate (a : SquatAnalyzer) (m : Markers) (c v : ℚ)
    (hm : m a.hip_id = some (c, v)) (hb : a.state = "below")
    (hv : v ≤ a.top_threshold) :
    (a.update m).1.state = "above" ∧ (a.update m).1.rep_count = a.rep_count + 1 ∧
    (a.update m).2.new_rep = true := by
  rw [update_below_up a m c v hm hb hv]
  exact ⟨rfl, rfl, rfl⟩

/-- C3 witness: an analyzer sitting in `"below"` with an arbitrary debounce
counter fires on one shallow frame. -/
theorem ascent_immediate_witness :
    ((( ⟨0, 200, 350, 5, true, "below", 2, 0⟩ : SquatAnalyzer).update
        (presentMarkers 0 150)).1.state = "above" ∧
     ((( ⟨0, 200, 350, 5, true, "below", 2, 0⟩ : SquatAnalyzer)).update
        (presentMarkers 0 150)).1.rep_count =
       (( ⟨0, 200, 350, 5, true, "below", 2, 0⟩ : SquatAnalyzer)).rep_count + 1 ∧
     ((( ⟨0, 200, 350, 5, true, "below", 2, 0⟩ : SquatAnalyzer)).update
        (presentMarkers 0 150)).2.new_rep = true) :=
  ascent_immediate _ _ 0 150 (by decide) rfl (by decide)

/-- C4: the repetition count never decreases over any input sequence, and a
single update increases it by at most one. -/
theorem rep_count_monotone (a : SquatAnalyzer) (ms : List Markers) (m : Markers) :
    a.rep_count ≤ (a.runM ms).rep_count ∧
    a.rep_count ≤ (a.update m).1.rep_count ∧
    (a.update m).1.rep_count ≤ a.rep_count + 1 :=
  ⟨runM_rep_le a ms, (update_rep_bounds a m).1, (update_rep_bounds a m).2⟩

/-- C5: an absent-signal cycle changes nothing and reports no event, no
depth, and the held phase, whatever `require_marker` is. -/
theorem absence_inert (a : SquatAnalyzer) (m : Markers) (hm : m a.hip_id = none) :
    (a.update m).1 = a ∧ (a.update m).2.new_rep = false ∧
    (a.update m).2.depth = none ∧ (a.update m).2.state = a.state ∧
    (a.update m).2.rep_count = a.rep_count := by
  rw [update_absent a m hm]
  exact ⟨rfl, rfl, rfl, rfl, rfl⟩

/-- C5 witness: a fresh analyzer fed a frame with no detections. -/
theorem absence_inert_witness :
    ((SquatAnalyzer.init 0 200 350 1 true).update absentMarkers).1 =
      SquatAnalyzer.init 0 200 350 1 true ∧
    ((SquatAnalyzer.init 0 200 350 1 true).update absentMarkers).2.new_rep = false ∧
    ((SquatAnalyzer.init 0 200 350 1 true).update absentMarkers).2.depth = none ∧
    ((SquatAnalyzer.init 0 200 350 1 true).update absentMarkers).2.state =
      (SquatAnalyzer.init 0 200 350 1 true).state ∧
    ((SquatAnalyzer.init 0 200 350 1 true).update absentMarkers).2.rep_count =
      (SquatAnalyzer.init 0 200 350 1 true).rep_count :=
  absence_inert _ _ rfl

/-- C6: `reset` reestablishes the initial state machine values, keeps every
configuration field, and is idempotent. -/
theorem reset_spec (a : SquatAnalyzer) :
    a.reset.state = "above" ∧ a.reset.rep_count = 0 ∧
    a.reset.below_frame_counter = 0 ∧
    a.reset.hip_id = a.hip_id ∧ a.reset.top_threshold = a.top_threshold ∧
    a.reset.bottom_threshold = a.bottom_threshold ∧
    a.reset.min_frames_below = a.min_frames_below ∧
    a.reset.require_marker = a.require_marker ∧
    a.reset.reset = a.reset :=
  ⟨rfl, rfl, rfl, rfl, rfl, rfl, rfl, rfl, rfl⟩

/-- C7: every state reachable by updates and resets has its phase string in
the two-element set, so the defensive fallback branch of `update` is never
taken. -/
theorem reachable_phase_valid (a : SquatAnalyzer) (hr : Reachable a) :
    a.state = "above" ∨ a.state = "below" :=
  (reachable_goodState hr).1

/-- C7 witness: the freshly constructed analyzer. -/
theorem reachable_phase_valid_witness :
    (SquatAnalyzer.init 0 200 350 1 true).state = "above" ∨
    (SquatAnalyzer.init 0 200 350 1 true).state = "below" :=
  reachable_phase_valid _ (Reachable.init 0 200 350 1 true)

/-- C9: the stored debounce length is `max(1, int(min_frames_below))` for any
integer argument, hence always at least one; construction is total. -/
theorem init_min_frames_clamped (h : Nat) (t b : ℚ) (n : Int) (r : Bool) :
    ((SquatAnalyzer.init h t b n r).min_frames_below : Int) = max 1 n ∧
    1 ≤ (SquatAnalyzer.init h t b n r).min_frames_below := by
  have h1 : (1 : Int) ≤ max 1 n := le_max_left 1 n
  constructor
  · show ((max 1 n).toNat : Int) = max 1 n
    omega
  · show 1 ≤ (max 1 n).toNat
    omega

/-- C10: along every reachable state the debounce counter stays within
`[0, min_frames_below)` and is zero whenever the phase is `"below"`. -/
theorem reachable_counter_invariant (a : SquatAnalyzer) (hr : Reachable a) :
    0 ≤ a.below_frame_counter ∧ a.below_frame_counter < a.min_frames_below ∧
    (a.state = "below" → a.below_frame_counter = 0) :=
  ⟨Nat.zero_le _, (reachable_goodState hr).2.1, (reachable_goodState hr).2.2⟩

/-- C10 witness: the invariant instantiated at a state reached after one deep
frame. -/
theorem reachable_counter_invariant_witness :
    0 ≤ ((SquatAnalyzer.init 0 200 350 2 true).update (presentMarkers 0 400)).1.below_frame_counter ∧
    ((SquatAnalyzer.init 0 200 350 2 true).update (presentMarkers 0 400)).1.below_frame_counter <
      ((SquatAnalyzer.init 0 200 350 2 true).update (presentMarkers 0 400)).1.min_frames_below ∧
    (((SquatAnalyzer.init 0 200 350 2 true).update (presentMarkers 0 400)).1.state = "below" →
      ((SquatAnalyzer.init 0 200 350 2 true).update (presentMarkers 0 400)).1.below_frame_counter = 0) :=
  reachable_counter_invariant _ (Reachable.update _ _ (Reachable.init 0 200 350 2 true))

/-! ### Runs of qualifying values while in phase `"above"` -/

theorem runValues_nil (a : SquatAnalyzer) : a.runValues [] = a := rfl

theorem runValues_cons (a : SquatAnalyzer) (v : Option ℚ) (vs : List (Option ℚ)) :
    a.runValues (v :: vs) = (a.step v).runValues vs := rfl

theorem presentMarkers_self (i : Nat) (v : ℚ) : presentMarkers i v i = some (0, v) := by
  simp [presentMarkers]

/-- A qualifying run too short to satisfy the debounce only advances the
counter. -/
theorem runValues_above_qual_stay (vs : List ℚ) (a : SquatAnalyzer)
    (ha : a.state = "above") (hq : ∀ v ∈ vs, a.bottom_threshold ≤ v)
    (hlen : a.below_frame_counter + vs.length < a.min_frames_below) :
    a.runValues (vs.map some) =
      { a with below_frame_counter := a.below_frame_counter + vs.length } := by
  induction vs generalizing a with
  | nil =>
      show a = { a with below_frame_counter := a.below_frame_counter + 0 }
      rfl
  | cons v rest ih =>
      have h1 : a.step (some v) =
          { a with below_frame_counter := a.below_frame_counter + 1 } :=
        congrArg Prod.fst (update_above_q_lt a (presentMarkers a.hip_id v) 0 v
          (presentMarkers_self _ _) ha (hq v (List.mem_cons_self v rest))
          (by simp only [List.length_cons] at hlen; omega))
      rw [List.map_cons, runValues_cons, h1]
      rw [ih ({ a with below_frame_counter := a.below_frame_counter + 1 }) ha
        (fun u hu => hq u (List.mem_cons_of_mem _ hu))
        (by show a.below_frame_counter + 1 + rest.length < a.min_frames_below
            simp only [List.length_cons] at hlen; omega)]
      show ({ a with below_frame_counter := a.below_frame_counter + 1 + rest.length } :
          SquatAnalyzer) =
        { a with below_frame_counter := a.below_frame_counter + (v :: rest).length }
      have harith : a.below_frame_counter + 1 + rest.length =
          a.below_frame_counter + (v :: rest).length := by
        simp only [List.length_cons]; omega
      rw [harith]

/-- A qualifying run that exactly satisfies the debounce transitions to
`"below"` with the counter reset and nothing else changed. -/
theorem runValues_above_qual_trans (vs : List ℚ) (a : SquatAnalyzer)
    (ha : a.state = "above") (hq : ∀ v ∈ vs, a.bottom_threshold ≤ v)
    (hfit : a.below_frame_counter + vs.length = a.min_frames_below)
    (hlt : a.below_frame_counter < a.min_frames_below) :
    a.runValues (vs.map some) =
      { a with state := "below", below_frame_counter := 0 } := by
  induction vs generalizing a with
  | nil =>
      exfalso
      simp only [List.length_nil] at hfit
      omega
  | cons v rest ih =>
      cases rest with
      | nil =>
          have h1 : a.step (some v) =
              { a with state := "below", below_frame_counter := 0 } :=
            congrArg Prod.fst (update_above_q_ge a (presentMarkers a.hip_id v) 0 v
              (presentMarkers_self _ _) ha (hq v (List.mem_cons_self v _))
              (by simp only [List.length_cons, List.length_nil] at hfit; omega))
          rw [List.map_cons, List.map_nil, runValues_cons, h1, runValues_nil]
      | cons w rest2 =>
          have hlt1 : a.below_frame_counter + 1 < a.min_frames_below := by
            simp only [List.length_cons] at hfit
            omega
          have h1 : a.step (some v) =
              { a with below_frame_counter := a.below_frame_counter + 1 } :=
            congrArg Prod.fst (update_above_q_lt a (presentMarkers a.hip_id v) 0 v
              (presentMarkers_self _ _) ha (hq v (List.mem_cons_self v _)) hlt1)
          rw [List.map_cons, runValues_cons, h1]
          exact ih ({ a with below_frame_counter := a.below_frame_counter + 1 }) ha
            (fun u hu => hq u (List.mem_cons_of_mem _ hu))
            (by show a.below_frame_counter + 1 + (w :: rest2).length = a.min_frames_below
                simp only [List.length_cons] at hfit ⊢; omega)
            (by show a.below_frame_counter + 1 < a.min_frames_below
                exact hlt1)

/-- C2 (amended: the phase-`"above"` detector additionally has its debounce
counter at zero): `k-1` qualifying cycles then a non-qualifying one keep the
phase `"above"` with the counter reset and the count unchanged; exactly `k`
qualifying cycles transition to `"below"` with the counter reset and no
repetition increment. -/
theorem debounce_descent (a : SquatAnalyzer) (k : Nat) (vs ws : List ℚ) (w : ℚ)
    (ha : a.state = "above") (hc : a.below_frame_counter = 0)
    (hk : a.min_frames_below = k) (hk1 : 1 ≤ k)
    (hvslen : vs.length = k - 1) (hvsq : ∀ v ∈ vs, a.bottom_threshold ≤ v)
    (hw : w < a.bottom_threshold)
    (hwslen : ws.length = k) (hwsq : ∀ v ∈ ws, a.bottom_threshold ≤ v) :
    ((a.runValues (vs.map some ++ [some w])).state = "above" ∧
     (a.runValues (vs.map some ++ [some w])).below_frame_counter = 0 ∧
     (a.runValues (vs.map some ++ [some w])).rep_count = a.rep_count) ∧
    ((a.runValues (ws.map some)).state = "below" ∧
     (a.runValues (ws.map some)).below_frame_counter = 0 ∧
     (a.runValues (ws.map some)).rep_count = a.rep_count) := by
  constructor
  · have happ : a.runValues (vs.map some ++ [some w]) =
        (a.runValues (vs.map some)).step (some w) := by
      unfold SquatAnalyzer.runValues
      rw [List.foldl_append]
      rfl
    rw [happ, runValues_above_qual_stay vs a ha hvsq (by omega)]
    have h2 : ({ a with below_frame_counter := a.below_frame_counter + vs.length } :
        SquatAnalyzer).step (some w) = { a with below_frame_counter := 0 } :=
      congrArg Prod.fst (update_above_nq
        ({ a with below_frame_counter := a.below_frame_counter + vs.length })
        (presentMarkers a.hip_id w) 0 w (presentMarkers_self _ _) ha hw
        (by show 1 ≤ a.min_frames_below; omega))
    rw [h2]
    exact ⟨ha, rfl, rfl⟩
  · rw [runValues_above_qual_trans ws a ha hwsq (by omega) (by omega)]
    exact ⟨rfl, rfl, rfl⟩

/-- C2 counterexample: a reachable detector in phase `"above"` with
`min_frames_below = 2` but a debounce counter already at 1 (one qualifying
frame seen) reaches `"below"` on a run of `k-1 = 1` qualifying cycle followed
by a non-qualifying one, so the claim as stated (for every detector in phase
High) fails. -/
theorem debounce_descent_cex :
    (((SquatAnalyzer.init 0 200 350 2 true).update (presentMarkers 0 400)).1.state = "above" ∧
     ((SquatAnalyzer.init 0 200 350 2 true).update (presentMarkers 0 400)).1.min_frames_below = 2 ∧
     ((SquatAnalyzer.init 0 200 350 2 true).update (presentMarkers 0 400)).1.below_frame_counter = 1 ∧
     ((((SquatAnalyzer.init 0 200 350 2 true).update (presentMarkers 0 400)).1.runValues
        [some 400, some 300]).state = "below")) := by
  decide

/-- C2 witness: a fresh detector with debounce length 2; one deep frame then
a shallow one stays `"above"`, two deep frames reach `"below"`. -/
theorem debounce_descent_witness :
    (((SquatAnalyzer.init 0 200 350 2 true).runValues
        (([400] : List ℚ).map some ++ [some 300])).state = "above" ∧
     ((SquatAnalyzer.init 0 200 350 2 true).runValues
        (([400] : List ℚ).map some ++ [some 300])).below_frame_counter = 0 ∧
     ((SquatAnalyzer.init 0 200 350 2 true).runValues
        (([400] : List ℚ).map some ++ [some 300])).rep_count =
       (SquatAnalyzer.init 0 200 350 2 true).rep_count) ∧
    (((SquatAnalyzer.init 0 200 350 2 true).runValues
        (([400, 400] : List ℚ).map some)).state = "below" ∧
     ((SquatAnalyzer.init 0 200 350 2 true).runValues
        (([400, 400] : List ℚ).map some)).below_frame_counter = 0 ∧
     ((SquatAnalyzer.init 0 200 350 2 true).runValues
        (([400, 400] : List ℚ).map some)).rep_count =
       (SquatAnalyzer.init 0 200 350 2 true).rep_count) :=
  debounce_descent (SquatAnalyzer.init 0 200 350 2 true) 2 [400] [400, 400] 300
    rfl rfl (by decide) (by decide) (by decide) (by decide) (by decide)
    (by decide) (by decide)

/-! ### The `require_marker` flag and observable behavior -/

theorem runTrace_nil (a : SquatAnalyzer) : a.runTrace [] = (a, []) := rfl

theorem runTrace_cons (a : SquatAnalyzer) (m : Markers) (ms : List Markers) :
    a.runTrace (m :: ms) =
      (((a.update m).1.runTrace ms).1, (a.update m).2 :: ((a.update m).1.runTrace ms).2) := rfl

theorem withFlag_eq_self (c : SquatAnalyzer) (b : Bool) (h : c.require_marker = b) :
    ({ c with require_marker := b } : SquatAnalyzer) = c := by
  cases c
  subst h
  rfl

/-- A single update commutes with toggling `require_marker`: the flag is only
read to pick the absent-signal status string. -/
theorem update_flag_fst (a : SquatAnalyzer) (m : Markers) :
    (({ a with require_marker := true } : SquatAnalyzer).update m).1 =
      { (({ a with require_marker := false } : SquatAnalyzer).update m).1 with
        require_marker := true } := by
  rcases a with ⟨hid, tt, bt, mfb, rq, st, rc, bc⟩
  rcases hm : m hid with _ | ⟨c, v⟩ <;>
    simp only [SquatAnalyzer.update, hm] <;> split_ifs <;> rfl

/-- The per-cycle results of the two flag settings agree in every field but
the status string, and the status strings themselves agree whenever the
signal was present. -/
theorem update_flag_snd (a : SquatAnalyzer) (m : Markers) :
    obsEq (({ a with require_marker := true } : SquatAnalyzer).update m).2
          (({ a with require_marker := false } : SquatAnalyzer).update m).2 ∧
    ((({ a with require_marker := true } : SquatAnalyzer).update m).2.status_text =
       (({ a with require_marker := false } : SquatAnalyzer).update m).2.status_text ∨
     (({ a with require_marker := true } : SquatAnalyzer).update m).2.depth = none) := by
  rcases a with ⟨hid, tt, bt, mfb, rq, st, rc, bc⟩
  rcases hm : m hid with _ | ⟨c, v⟩ <;>
    simp only [SquatAnalyzer.update, hm, obsEq] <;> split_ifs <;> simp

/-- C8 (amended: results agree except possibly for the status string, which
differs exactly on absent-signal cycles): two analyzers identical but for
`require_marker`, fed the same cycles, evolve through the same states (up to
the flag itself) and emit results agreeing in count, event flag, depth and
phase on every cycle, and also in status whenever the signal was present. -/
theorem require_flag_unobservable (a : SquatAnalyzer) (ms : List Markers) :
    (({ a with require_marker := true } : SquatAnalyzer).runTrace ms).1 =
      { (({ a with require_marker := false } : SquatAnalyzer).runTrace ms).1 with
        require_marker := true } ∧
    List.Forall₂ (fun r s => obsEq r s ∧ (r.status_text = s.status_text ∨ r.depth = none))
      (({ a with require_marker := true } : SquatAnalyzer).runTrace ms).2
      (({ a with require_marker := false } : SquatAnalyzer).runTrace ms).2 := by
  induction ms generalizing a with
  | nil => exact ⟨rfl, List.Forall₂.nil⟩
  | cons m ms ih =>
      have h1 := update_flag_fst a m
      have h2 := update_flag_snd a m
      have hcflag : (({ a with require_marker := false } : SquatAnalyzer).update m).1.require_marker =
          false := (update_config _ m).2.2.2.2
      have ihc := ih (({ a with require_marker := false } : SquatAnalyzer).update m).1
      rw [withFlag_eq_self _ false hcflag] at ihc
      rw [runTrace_cons, runTrace_cons, h1]
      exact ⟨ihc.1, List.Forall₂.cons h2 ihc.2⟩

/-- C8 counterexample: on an absent-signal cycle the two flag settings emit
different result records (the status strings differ), so the observable
results are not identical. -/
theorem require_flag_unobservable_cex :
    ¬ (((SquatAnalyzer.init 0 200 350 1 true).update absentMarkers).2 =
       ((SquatAnalyzer.init 0 200 350 1 false).update absentMarkers).2) := by
  decide

end Squat
